import Mathlib

/-!
Verification of the delta-sells data-entry form: the lead-form submit
lifecycle (LeadForm.tsx), its payload construction, and the submission
service's retry behaviour, embedded shallowly in Lean.
-/

namespace DeltaSells

/-! ### Static configuration (the configuration source file) -/

/-- `MAX_RETRIES` from the configuration file: the maximum number of delivery
attempts made by the submission service. -/
def MAX_RETRIES : Nat := 7

/-- `RETRY_DELAY` from the configuration file: milliseconds between attempts. -/
def RETRY_DELAY : Nat := 2000

/-- The shape of the `SHEET_NAMES` configuration record. -/
structure SheetNames where
  CLIENTE : String
  LEAD : String
deriving DecidableEq

/-- `SHEET_NAMES` from the configuration file: spreadsheet tab names. -/
def SHEET_NAMES : SheetNames :=
  { CLIENTE := "recebendoDadosDasVendas", LEAD := "recebendoDadosDeLeads" }

/-! ### Lead form data model (LeadForm.tsx) -/

/-- A calendar date as held by the form's date picker (`dataLembrete`). -/
structure PickedDate where
  day : Nat
  month : Nat
  year : Nat
deriving DecidableEq

/-- `LeadFormValues`: the lead form view model. Field list and types follow
the `defaultValues` of the `useForm` call in LeadForm.tsx. -/
structure LeadFormValues where
  nome : String
  telefone : String
  instagram : String
  interesse : String
  statusLead : String
  dataLembrete : Option PickedDate
  motivoLembrete : String
  observacoes : String
deriving DecidableEq

/-- The `defaultValues` passed to `useForm` in LeadForm.tsx. -/
def defaultLeadValues : LeadFormValues :=
  { nome := "", telefone := "", instagram := "", interesse := "",
    statusLead := "Novo", dataLembrete := none, motivoLembrete := "",
    observacoes := "" }

/-! ### Date serialization (date-fns `format(date, "dd/MM/yy")`) -/

/-- The decimal digit character for `n % 10`. -/
def digitChar (n : Nat) : Char := Char.ofNat (48 + n % 10)

/-- Two-digit zero-padded decimal rendering: models the `dd`, `MM` and `yy`
fields of date-fns `format` (each of which renders its value on exactly two
digits for values below 100, the only values a day, month or two-digit year
takes). -/
def pad2 (n : Nat) : String := String.mk [digitChar (n / 10), digitChar n]

/-- Models date-fns `format(date, "dd/MM/yy")` as invoked in the lead form's
`onSubmit`: zero-padded day, month, and two-digit year separated by
slashes. -/
def formatDdMMyy (d : PickedDate) : String :=
  pad2 d.day ++ "/" ++ pad2 d.month ++ "/" ++ pad2 (d.year % 100)

/-! ### Submission payload (`formattedData` in onSubmit) -/

/-- The result object consumed from `submitToGoogleSheets` by the lead form
(`result.success`, `result.message`). -/
structure SubmitResult where
  success : Bool
  message : String
deriving DecidableEq

/-- The payload `formattedData` sent to the submission service: the form
values with `dataLembrete` serialized (empty string when unset) and the
`formType` discriminator. -/
structure FormattedLeadData where
  nome : String
  telefone : String
  instagram : String
  interesse : String
  statusLead : String
  dataLembrete : String
  motivoLembrete : String
  observacoes : String
  formType : String
deriving DecidableEq

/-- `formattedData` as built in the lead form's `onSubmit`: spreads the form
data, serializes `dataLembrete` with `format(date, "dd/MM/yy")` (empty string
when unset), and sets `formType` to the lead discriminator. -/
def formatLeadData (data : LeadFormValues) : FormattedLeadData :=
  { nome := data.nome, telefone := data.telefone,
    instagram := data.instagram, interesse := data.interesse,
    statusLead := data.statusLead,
    dataLembrete :=
      match data.dataLembrete with
      | some d => formatDdMMyy d
      | none => "",
    motivoLembrete := data.motivoLembrete,
    observacoes := data.observacoes,
    formType := "lead" }

/-! ### Submit lifecycle state machine (LeadForm.tsx onSubmit + Button) -/

/-- What the awaited submission produced: a result object from the service,
or a thrown exception (carrying `some message` when the thrown value is an
`Error`, `none` otherwise). -/
inductive SubmitOutcome where
  | result (r : SubmitResult)
  | exception (msg : Option String)
deriving DecidableEq

/-- An outcome that is not a success result: a failure result or an
exception. -/
def SubmitOutcome.failed : SubmitOutcome → Bool
  | .result r => !r.success
  | .exception _ => true

/-- The generic error description used in the catch branch when the thrown
value is not an `Error`. -/
def genericErrorText : String :=
  "Ocorreu um erro ao enviar os dados. Tente novamente."

/-- The error text the catch/else branches display for a failed outcome:
`result.message` for a failure result, the exception's message when it is an
`Error`, the generic text otherwise. -/
def outcomeErrorText : SubmitOutcome → String
  | .result r => r.message
  | .exception (some m) => m
  | .exception none => genericErrorText

/-- A toast notification as raised by `toast({...})` in the lead form. -/
structure Toast where
  title : String
  description : String
  destructive : Bool
deriving DecidableEq

/-- The success toast of the lead form's success branch. -/
def successToast : Toast :=
  { title := "Sucesso!",
    description := "Dados do lead enviados com sucesso para a planilha.",
    destructive := false }

/-- An error toast (`variant: "destructive"`) with the given description. -/
def errorToast (msg : String) : Toast :=
  { title := "Erro", description := msg, destructive := true }

/-- The `setTimeout` delay (ms) of the success branch: the fixed display
window of the `submitted` state. -/
def RESET_DISPLAY_DELAY : Nat := 3000

/-- The lead form container state: the two `useState` booleans, the form
values, the pending reset timer (with its delay) scheduled by the success
branch, and the toasts raised so far. -/
structure FormState where
  isSubmitting : Bool
  submitted : Bool
  values : LeadFormValues
  pendingReset : Option Nat
  toasts : List Toast
deriving DecidableEq

/-- The form's initial state: fresh editing state with default values. -/
def initFormState : FormState :=
  { isSubmitting := false, submitted := false, values := defaultLeadValues,
    pendingReset := none, toasts := [] }

/-- The tail of `onSubmit` after the awaited service call: branches on the
result or exception exactly as LeadForm.tsx does, with the `finally` clause
clearing `isSubmitting` in every branch. The success branch raises the
success toast, enters `submitted`, and schedules the reset timeout; the
failure branches raise a destructive error toast and touch nothing else. -/
def completeSubmit (s : FormState) (o : SubmitOutcome) : FormState :=
  match o with
  | .result r =>
    if r.success then
      { s with toasts := s.toasts ++ [successToast],
               submitted := true,
               pendingReset := some RESET_DISPLAY_DELAY,
               isSubmitting := false }
    else
      { s with toasts := s.toasts ++ [errorToast r.message],
               isSubmitting := false }
  | .exception m =>
      { s with toasts := s.toasts ++ [errorToast (m.getD genericErrorText)],
               isSubmitting := false }

/-- The `setTimeout` callback of the success branch: `reset()` restores the
default values and `setSubmitted(false)` leaves the display window. -/
def fireReset (s : FormState) : FormState :=
  { s with values := defaultLeadValues, submitted := false,
           pendingReset := none }

/-- `disabled={isSubmitting || submitted}` on the submit Button. -/
def buttonDisabled (s : FormState) : Bool := s.isSubmitting || s.submitted

/-- UI events driving the submit lifecycle: a submit click that starts a
submission, completion of the in-flight submission with an outcome, the
scheduled reset timeout firing, and the user editing the fields. -/
inductive FormLabel where
  | start
  | complete (o : SubmitOutcome)
  | fireTimeout
  | edit (v : LeadFormValues)
deriving DecidableEq

/-- Whether a label is a submission completion. -/
def FormLabel.isComplete : FormLabel → Bool
  | .complete _ => true
  | _ => false

/-- One event step of the form. A `start` is only possible while the submit
button is enabled (it then sets `isSubmitting`, as the head of `onSubmit`
does); a `complete` only while a submission is in flight; `fireTimeout` only
with a scheduled reset. Editing fields is always possible (the inputs are
never disabled). -/
def stepForm (s : FormState) : FormLabel → Option FormState
  | .start =>
      if buttonDisabled s then none
      else some { s with isSubmitting := true }
  | .complete o =>
      if s.isSubmitting then some (completeSubmit s o) else none
  | .fireTimeout =>
      match s.pendingReset with
      | some _ => some (fireReset s)
      | none => none
  | .edit v => some { s with values := v }

/-- Run a sequence of events from a state; `none` when some event was not
enabled at its state. -/
def runForm : FormState → List FormLabel → Option FormState
  | s, [] => some s
  | s, lab :: rest =>
    match stepForm s lab with
    | some s₁ => runForm s₁ rest
    | none => none

/-! ### Submission service (retry loop) -/

/-- An observable event of the submission service: a delivery attempt with
its index, or a wait between attempts with its duration in milliseconds. -/
inductive SubmitEvent where
  | attempt (i : Nat)
  | wait (ms : Nat)
deriving DecidableEq

/-- Whether a service event is a delivery attempt. -/
def SubmitEvent.isAttempt : SubmitEvent → Bool
  | .attempt _ => true
  | .wait _ => false

/-- Modelled from the spec: the retry loop of the submission service
(`submitToGoogleSheets` in the GoogleSheetsService module, which is not
present under the sources; only its configuration constants and its caller
are). The spec: on failure, retries up to a configured maximum attempt count
with a fixed delay between attempts; after exhausting attempts, returns a
failure result carrying the last error's message. Each delivery attempt is
abstracted as a function from the attempt index to either the endpoint's
success message or an error message; the loop records attempts and waits as
events. `n` is the remaining attempt budget. -/
def retryLoop (res : Nat → Except String String) :
    Nat → Nat → List SubmitEvent × SubmitResult
  | _, 0 => ([], { success := false, message := "" })
  | i, n + 1 =>
    match res i with
    | .ok m => ([.attempt i], { success := true, message := m })
    | .error e =>
      if n = 0 then
        ([.attempt i], { success := false, message := e })
      else
        let rest := retryLoop res (i + 1) n
        (SubmitEvent.attempt i :: SubmitEvent.wait RETRY_DELAY :: rest.1,
         rest.2)

/-- Modelled from the spec: the submission service entry point runs the
retry loop with the configured maximum attempt budget. -/
def submitToGoogleSheets (res : Nat → Except String String) :
    List SubmitEvent × SubmitResult :=
  retryLoop res 0 MAX_RETRIES

/-! ### Validation (lead schema and submit gating) -/

/-- The status enum offered by the lead form's status select. -/
def leadStatusOptions : List String :=
  ["Novo", "Em negociação", "Qualificado", "Não qualificado"]

/-- Whether a string matches the phone display format `(00) 00000-0000`. -/
def phonePatternOk (s : String) : Bool :=
  match s.toList with
  | ['(', a, b, ')', ' ', c, d, e, f, g, '-', h, i, j, k] =>
      ([a, b, c, d, e, f, g, h, i, j, k]).all Char.isDigit
  | _ => false

/-- The fields the lead form marks `required`. -/
def requiredLeadFields : List String :=
  ["nome", "telefone", "interesse", "statusLead", "dataLembrete",
   "motivoLembrete"]

/-- Modelled from the spec: the per-field rejection test of the lead
validation schema (`leadFormSchema` in the leadValidators module, not
present under the sources). The spec: reject a record before submission if
required fields are empty or malformed (phone pattern, date validity, enum
membership). Required fields are those the form marks `required`; the phone
must match the display pattern and the status must belong to the enum. -/
def fieldInvalid (d : LeadFormValues) : String → Bool
  | "nome" => d.nome == ""
  | "telefone" => !phonePatternOk d.telefone
  | "interesse" => d.interesse == ""
  | "statusLead" => !leadStatusOptions.contains d.statusLead
  | "dataLembrete" => d.dataLembrete.isNone
  | "motivoLembrete" => d.motivoLembrete == ""
  | _ => false

/-- Modelled from the spec: the human-readable message the schema attaches
to each offending field. -/
def fieldErrorMessage : String → String
  | "nome" => "Nome é obrigatório"
  | "telefone" => "Telefone inválido"
  | "interesse" => "Interesse é obrigatório"
  | "statusLead" => "Status do lead inválido"
  | "dataLembrete" => "Data de lembrete é obrigatória"
  | "motivoLembrete" => "Motivo do lembrete é obrigatório"
  | _ => ""

/-- A field-level validation error: field name and human-readable message. -/
structure FieldError where
  field : String
  message : String
deriving DecidableEq

/-- Modelled from the spec: the mapping from field name to error message the
validation produces, one entry per offending required field. -/
def leadErrors (d : LeadFormValues) : List FieldError :=
  requiredLeadFields.filterMap fun f =>
    if fieldInvalid d f then
      some { field := f, message := fieldErrorMessage f }
    else none

/-- Modelled from the spec: react-hook-form's `handleSubmit` with the zod
resolver (both external to the sources), which invokes the submit handler
only when validation passes and otherwise surfaces the field errors without
calling it. -/
def handleSubmit {α : Type} (onSubmitFn : LeadFormValues → α)
    (d : LeadFormValues) : Except (List FieldError) α :=
  match leadErrors d with
  | [] => .ok (onSubmitFn d)
  | es => .error es

/-! ### Phone formatter -/

/-- Modelled from the spec: `formatPhone` from the formatters module (not
present under the sources). The spec: a phone number input of raw digits is
normalized to the display format `(00) 00000-0000` before submission. The
digits of the input are kept in order and, for a complete 11-digit number,
arranged in the display pattern. -/
def formatPhone (s : String) : String :=
  match s.toList.filter Char.isDigit with
  | [a, b, c, d, e, f, g, h, i, j, k] =>
      String.mk ['(', a, b, ')', ' ', c, d, e, f, g, '-', h, i, j, k]
  | ds => String.mk ds

/-- Whether a string has the `dd/MM/yy` shape: two digits, a slash, two
digits, a slash, two digits. -/
def ddMMyyShape (s : String) : Bool :=
  match s.toList with
  | [a, b, '/', c, d, '/', e, f] => [a, b, c, d, e, f].all Char.isDigit
  | _ => false

/-! ### Supporting lemmas -/

/-- `digitChar` always yields a decimal digit character. -/
theorem digitChar_isDigit (n : Nat) : (digitChar n).isDigit = true := by
  unfold digitChar
  have h : n % 10 < 10 := Nat.mod_lt _ (by norm_num)
  set k := n % 10 with hk
  interval_cases k <;> decide

/-- The character list of a serialized reminder date. -/
theorem data_formatDdMMyy (t : PickedDate) :
    (formatDdMMyy t).data =
      [digitChar (t.day / 10), digitChar t.day, '/',
       digitChar (t.month / 10), digitChar t.month, '/',
       digitChar (t.year % 100 / 10), digitChar (t.year % 100)] := rfl

/-- The character list underlying a string built from a character list. -/
theorem stringData_mk (l : List Char) : (String.mk l).data = l := rfl

/-- A string assembled in the phone display pattern from eleven digit
characters matches the pattern, and filtering it back to digits recovers the
eleven digits in order. -/
theorem phonePatternOk_formatted (a b c d e f g h i j k : Char)
    (hdig : ([a, b, c, d, e, f, g, h, i, j, k]).all Char.isDigit = true) :
    phonePatternOk
        (String.mk ['(', a, b, ')', ' ', c, d, e, f, g, '-', h, i, j, k]) =
      true ∧
    (String.mk
        ['(', a, b, ')', ' ', c, d, e, f, g, '-', h, i, j, k]).data.filter
        Char.isDigit = [a, b, c, d, e, f, g, h, i, j, k] := by
  simp only [List.all_cons, List.all_nil, Bool.and_eq_true, and_true] at hdig
  obtain ⟨ha, hb, hc, hd, he, hf, hg, hh, hi, hj, hk⟩ := hdig
  have hp1 : Char.isDigit '(' = false := rfl
  have hp2 : Char.isDigit ')' = false := rfl
  have hp3 : Char.isDigit ' ' = false := rfl
  have hp4 : Char.isDigit '-' = false := rfl
  constructor
  · simp [phonePatternOk, String.toList, stringData_mk,
          ha, hb, hc, hd, he, hf, hg, hh, hi, hj, hk]
  · simp [List.filter, ha, hb, hc, hd, he, hf, hg, hh, hi, hj, hk,
          hp1, hp2, hp3, hp4]

/-- Running a single event is a bind on the step. -/
theorem runForm_cons (s : FormState) (lab : FormLabel)
    (rest : List FormLabel) :
    runForm s (lab :: rest) =
      (stepForm s lab).bind fun s₁ => runForm s₁ rest := by
  cases h : stepForm s lab <;> simp [runForm, h]

/-- Running a concatenation of event sequences is the composition of the
runs. -/
theorem runForm_append (s : FormState) (a b : List FormLabel) :
    runForm s (a ++ b) = (runForm s a).bind fun s₁ => runForm s₁ b := by
  induction a generalizing s with
  | nil => rfl
  | cons lab rest ih =>
    simp only [List.cons_append, runForm]
    cases stepForm s lab with
    | none => rfl
    | some s₁ => simpa using ih s₁

/-- A submission in flight stays in flight through any event sequence
containing no completion: only completing the submission clears
`isSubmitting`. -/
theorem isSubmitting_persists (l : List FormLabel) (s s₁ : FormState)
    (hs : s.isSubmitting = true)
    (hnc : ∀ o, FormLabel.complete o ∉ l)
    (h : runForm s l = some s₁) : s₁.isSubmitting = true := by
  induction l generalizing s with
  | nil =>
    simp only [runForm, Option.some.injEq] at h
    rw [← h]; exact hs
  | cons lab rest ih =>
    cases lab with
    | start => simp [runForm, stepForm, buttonDisabled, hs] at h
    | complete o => exact absurd (List.mem_cons_self _ _) (hnc o)
    | fireTimeout =>
      cases hp : s.pendingReset with
      | none => simp [runForm, stepForm, hp] at h
      | some ms =>
        simp only [runForm, stepForm, hp] at h
        exact ih _ (by simp [fireReset, hs])
          (fun o ho => hnc o (List.mem_cons_of_mem _ ho)) h
    | edit v =>
      simp only [runForm, stepForm] at h
      exact ih _ (by simp [hs])
        (fun o ho => hnc o (List.mem_cons_of_mem _ ho)) h

/-! ### Claim theorems -/

/-- C1: when every delivery attempt fails, the submission service makes
exactly `MAX_RETRIES` attempts, waits the fixed `RETRY_DELAY` between
consecutive attempts, and returns a failure result whose message is the last
attempt's error text. -/
theorem submit_retries_exhausted (res : Nat → Except String String)
    (errs : Nat → String)
    (h : ∀ i, i < MAX_RETRIES → res i = .error (errs i)) :
    submitToGoogleSheets res =
      ([.attempt 0, .wait RETRY_DELAY, .attempt 1, .wait RETRY_DELAY,
        .attempt 2, .wait RETRY_DELAY, .attempt 3, .wait RETRY_DELAY,
        .attempt 4, .wait RETRY_DELAY, .attempt 5, .wait RETRY_DELAY,
        .attempt 6],
       { success := false, message := errs (MAX_RETRIES - 1) }) := by
  have h0 := h 0 (by decide)
  have h1 := h 1 (by decide)
  have h2 := h 2 (by decide)
  have h3 := h 3 (by decide)
  have h4 := h 4 (by decide)
  have h5 := h 5 (by decide)
  have h6 := h 6 (by decide)
  simp [submitToGoogleSheets, MAX_RETRIES, RETRY_DELAY, retryLoop,
        h0, h1, h2, h3, h4, h5, h6]

/-- Witness for C1 with every attempt failing on a concrete error text. -/
theorem submit_retries_exhausted_check :
    submitToGoogleSheets (fun i => Except.error (toString i)) =
      ([.attempt 0, .wait RETRY_DELAY, .attempt 1, .wait RETRY_DELAY,
        .attempt 2, .wait RETRY_DELAY, .attempt 3, .wait RETRY_DELAY,
        .attempt 4, .wait RETRY_DELAY, .attempt 5, .wait RETRY_DELAY,
        .attempt 6],
       { success := false, message := toString (MAX_RETRIES - 1) }) :=
  submit_retries_exhausted (fun i => Except.error (toString i))
    (fun i => toString i) (fun _ _ => rfl)

/-- C4: a candidate record with a required field empty or malformed is
rejected by validation with a field-specific, non-empty human-readable
message for the offending field, and the submit handler is never invoked:
`handleSubmit` returns the field errors for every possible handler. -/
theorem invalid_field_blocks_submit (d : LeadFormValues) (f : String)
    (hmem : f ∈ requiredLeadFields) (hinv : fieldInvalid d f = true) :
    ({ field := f, message := fieldErrorMessage f } : FieldError) ∈
        leadErrors d ∧
    fieldErrorMessage f ≠ "" ∧
    ∀ g : LeadFormValues → Nat, handleSubmit g d = .error (leadErrors d) := by
  have hmem2 : ({ field := f, message := fieldErrorMessage f } : FieldError) ∈
      leadErrors d := by
    unfold leadErrors
    exact List.mem_filterMap.mpr ⟨f, hmem, by simp [hinv]⟩
  have hne : leadErrors d ≠ [] := by
    intro hE
    rw [hE] at hmem2
    exact absurd hmem2 (List.not_mem_nil _)
  refine ⟨hmem2, ?_, ?_⟩
  · simp only [requiredLeadFields, List.mem_cons, List.not_mem_nil,
               or_false] at hmem
    rcases hmem with h | h | h | h | h | h <;> subst h <;> decide
  · intro g
    cases hE : leadErrors d with
    | nil => exact absurd hE hne
    | cons e es => simp [handleSubmit, hE]

/-- Witness for C4 at the default (all-empty) record and the name field. -/
theorem invalid_field_blocks_submit_check :
    ({ field := "nome", message := fieldErrorMessage "nome" } : FieldError) ∈
        leadErrors defaultLeadValues ∧
    fieldErrorMessage "nome" ≠ "" ∧
    ∀ g : LeadFormValues → Nat,
      handleSubmit g defaultLeadValues =
        .error (leadErrors defaultLeadValues) :=
  invalid_field_blocks_submit defaultLeadValues "nome" (by decide) (by decide)

/-- C7: a phone number entered as eleven raw digits is normalized to the
display format `(00) 00000-0000`: the formatted value matches the display
pattern and its digits are exactly the entered digits in order. -/
theorem raw_digits_normalized (s : String)
    (hlen : s.toList.length = 11)
    (hdig : s.toList.all Char.isDigit = true) :
    phonePatternOk (formatPhone s) = true ∧
    (formatPhone s).toList.filter Char.isDigit = s.toList := by
  have h11 : s.toList.length = 10 + 1 := hlen
  obtain ⟨a, t1, e1⟩ := List.exists_of_length_succ _ h11
  have n1 : t1.length = 9 + 1 := by rw [e1] at hlen; simpa using hlen
  obtain ⟨b, t2, e2⟩ := List.exists_of_length_succ _ n1
  have n2 : t2.length = 8 + 1 := by rw [e2] at n1; simpa using n1
  obtain ⟨c, t3, e3⟩ := List.exists_of_length_succ _ n2
  have n3 : t3.length = 7 + 1 := by rw [e3] at n2; simpa using n2
  obtain ⟨d, t4, e4⟩ := List.exists_of_length_succ _ n3
  have n4 : t4.length = 6 + 1 := by rw [e4] at n3; simpa using n3
  obtain ⟨e, t5, e5⟩ := List.exists_of_length_succ _ n4
  have n5 : t5.length = 5 + 1 := by rw [e5] at n4; simpa using n4
  obtain ⟨f, t6, e6⟩ := List.exists_of_length_succ _ n5
  have n6 : t6.length = 4 + 1 := by rw [e6] at n5; simpa using n5
  obtain ⟨g, t7, e7⟩ := List.exists_of_length_succ _ n6
  have n7 : t7.length = 3 + 1 := by rw [e7] at n6; simpa using n6
  obtain ⟨h, t8, e8⟩ := List.exists_of_length_succ _ n7
  have n8 : t8.length = 2 + 1 := by rw [e8] at n7; simpa using n7
  obtain ⟨i, t9, e9⟩ := List.exists_of_length_succ _ n8
  have n9 : t9.length = 1 + 1 := by rw [e9] at n8; simpa using n8
  obtain ⟨j, t10, e10⟩ := List.exists_of_length_succ _ n9
  have n10 : t10.length = 0 + 1 := by rw [e10] at n9; simpa using n9
  obtain ⟨k, t11, e11⟩ := List.exists_of_length_succ _ n10
  have n11 : t11.length = 0 := by rw [e11] at n10; simpa using n10
  have e12 : t11 = [] := List.length_eq_zero.mp n11
  have hL : s.toList = [a, b, c, d, e, f, g, h, i, j, k] := by
    rw [e1, e2, e3, e4, e5, e6, e7, e8, e9, e10, e11, e12]
  have hall : ([a, b, c, d, e, f, g, h, i, j, k]).all Char.isDigit = true := by
    rw [← hL]; exact hdig
  have hfil : s.toList.filter Char.isDigit = s.toList :=
    List.filter_eq_self.mpr (by
      intro x hx
      exact List.all_eq_true.mp hdig x hx)
  have hfmt : formatPhone s =
      String.mk ['(', a, b, ')', ' ', c, d, e, f, g, '-', h, i, j, k] := by
    unfold formatPhone
    rw [hfil, hL]
  have hmain := phonePatternOk_formatted a b c d e f g h i j k hall
  refine ⟨by rw [hfmt]; exact hmain.1, ?_⟩
  rw [hfmt, hL]
  exact hmain.2

/-- Witness for C7 at a concrete eleven-digit raw input. -/
theorem raw_digits_normalized_check :
    phonePatternOk (formatPhone "11987654321") = true ∧
    (formatPhone "11987654321").toList.filter Char.isDigit =
      "11987654321".toList :=
  raw_digits_normalized "11987654321" (by decide) (by decide)

/-- C8: at most one submission is in flight: in any valid event run of the
form, between any two submission starts there is a completion of the first
submission — a second submit step is never enabled until the in-flight
attempt runs to completion. -/
theorem no_second_start_without_complete (s s₉ : FormState)
    (l₁ l₂ l₃ : List FormLabel)
    (h : runForm s
        (l₁ ++ FormLabel.start :: (l₂ ++ FormLabel.start :: l₃)) =
      some s₉) :
    ∃ o, FormLabel.complete o ∈ l₂ := by
  by_contra hno
  push_neg at hno
  rw [runForm_append] at h
  cases h₁ : runForm s l₁ with
  | none => rw [h₁] at h; simp at h
  | some t₁ =>
    rw [h₁] at h
    simp only [Option.some_bind] at h
    rw [runForm_cons] at h
    cases hstep : stepForm t₁ .start with
    | none => rw [hstep] at h; simp at h
    | some t₂ =>
      rw [hstep] at h
      simp only [Option.some_bind] at h
      have ht₂ : t₂.isSubmitting = true := by
        by_cases hb : buttonDisabled t₁ = true
        · simp [stepForm, hb] at hstep
        · simp only [stepForm, if_neg hb] at hstep
          cases hstep
          rfl
      rw [runForm_append] at h
      cases h₂ : runForm t₂ l₂ with
      | none => rw [h₂] at h; simp at h
      | some t₃ =>
        rw [h₂] at h
        simp only [Option.some_bind] at h
        have ht₃ : t₃.isSubmitting = true :=
          isSubmitting_persists l₂ t₂ t₃ ht₂ hno h₂
        rw [runForm_cons] at h
        simp [stepForm, buttonDisabled, ht₃] at h

/-- Witness for C8 on a concrete run: start, failure completion, start. -/
theorem no_second_start_without_complete_check :
    ∃ o, FormLabel.complete o ∈
      [FormLabel.complete (.result { success := false, message := "err" })] :=
  no_second_start_without_complete initFormState
    { isSubmitting := true, submitted := false, values := defaultLeadValues,
      pendingReset := none, toasts := [errorToast "err"] }
    [] [FormLabel.complete (.result { success := false, message := "err" })]
    [] (by decide)

/-- C2: when the service returns a success result, the form enters the
`submitted` state (no longer submitting) with the reset scheduled at the
fixed display delay, and once the scheduled reset fires every field is back
at its default value and the form is a fresh editing state. -/
theorem success_enters_submitted_then_resets (s : FormState) (r : SubmitResult)
    (h : r.success = true) :
    (completeSubmit s (.result r)).submitted = true ∧
    (completeSubmit s (.result r)).isSubmitting = false ∧
    (completeSubmit s (.result r)).pendingReset = some RESET_DISPLAY_DELAY ∧
    (fireReset (completeSubmit s (.result r))).values = defaultLeadValues ∧
    (fireReset (completeSubmit s (.result r))).submitted = false ∧
    (fireReset (completeSubmit s (.result r))).isSubmitting = false := by
  simp [completeSubmit, fireReset, h]

/-- Witness for C2 at a concrete state and success result. -/
theorem success_enters_submitted_then_resets_check :
    (completeSubmit { initFormState with isSubmitting := true }
        (.result { success := true, message := "ok" })).submitted = true ∧
    (completeSubmit { initFormState with isSubmitting := true }
        (.result { success := true, message := "ok" })).isSubmitting = false ∧
    (completeSubmit { initFormState with isSubmitting := true }
        (.result { success := true, message := "ok" })).pendingReset =
      some RESET_DISPLAY_DELAY ∧
    (fireReset (completeSubmit { initFormState with isSubmitting := true }
        (.result { success := true, message := "ok" }))).values =
      defaultLeadValues ∧
    (fireReset (completeSubmit { initFormState with isSubmitting := true }
        (.result { success := true, message := "ok" }))).submitted = false ∧
    (fireReset (completeSubmit { initFormState with isSubmitting := true }
        (.result { success := true, message := "ok" }))).isSubmitting =
      false :=
  success_enters_submitted_then_resets _ _ rfl

/-- C3: for a failed outcome (failure result or exception) arriving while the
form is not in the `submitted` display state, the form returns to an editable
state — submitting is cleared and `submitted` is not entered — and exactly one
destructive error toast carrying the outcome's error text is appended. -/
theorem failure_returns_to_editing (s : FormState) (o : SubmitOutcome)
    (hsub : s.submitted = false) (hf : o.failed = true) :
    (completeSubmit s o).isSubmitting = false ∧
    (completeSubmit s o).submitted = false ∧
    (completeSubmit s o).toasts =
      s.toasts ++ [errorToast (outcomeErrorText o)] ∧
    (errorToast (outcomeErrorText o)).destructive = true := by
  cases o with
  | result r =>
    cases hr : r.success with
    | true => simp [SubmitOutcome.failed, hr] at hf
    | false => simp [completeSubmit, outcomeErrorText, errorToast, hr, hsub]
  | exception m =>
    cases m with
    | none => simp [completeSubmit, outcomeErrorText, errorToast, hsub]
    | some msg => simp [completeSubmit, outcomeErrorText, errorToast, hsub]

/-- Witness for C3 at a concrete state and failure result. -/
theorem failure_returns_to_editing_check :
    (completeSubmit { initFormState with isSubmitting := true }
        (.result { success := false, message := "fail" })).isSubmitting =
      false ∧
    (completeSubmit { initFormState with isSubmitting := true }
        (.result { success := false, message := "fail" })).submitted = false ∧
    (completeSubmit { initFormState with isSubmitting := true }
        (.result { success := false, message := "fail" })).toasts =
      ({ initFormState with isSubmitting := true } : FormState).toasts ++
        [errorToast (outcomeErrorText
          (.result { success := false, message := "fail" }))] ∧
    (errorToast (outcomeErrorText
        (.result { success := false, message := "fail" }))).destructive =
      true :=
  failure_returns_to_editing _ _ rfl rfl

/-- C5: when the form data carries a reminder date, the payload's
`dataLembrete` field is that date serialized with `dd/MM/yy` — zero-padded
day, month and two-digit year — and the serialized string has the
two-digits/slash/two-digits/slash/two-digits shape. -/
theorem reminder_date_serialized (d : LeadFormValues) (t : PickedDate)
    (h : d.dataLembrete = some t) :
    (formatLeadData d).dataLembrete = formatDdMMyy t ∧
    ddMMyyShape ((formatLeadData d).dataLembrete) = true := by
  have hfield : (formatLeadData d).dataLembrete = formatDdMMyy t := by
    simp [formatLeadData, h]
  refine ⟨hfield, ?_⟩
  rw [hfield]
  simp [ddMMyyShape, data_formatDdMMyy, digitChar_isDigit]

/-- Witness for C5 at a concrete form state and date. -/
theorem reminder_date_serialized_check :
    (formatLeadData
        { defaultLeadValues with dataLembrete := some ⟨5, 12, 2026⟩
        }).dataLembrete = formatDdMMyy ⟨5, 12, 2026⟩ ∧
    ddMMyyShape ((formatLeadData
        { defaultLeadValues with dataLembrete := some ⟨5, 12, 2026⟩
        }).dataLembrete) = true :=
  reminder_date_serialized _ _ rfl

/-- C6: every payload the lead form hands to the submission service carries
the `formType` discriminator set to the lead value, and the configured lead
sheet tab is the lead sheet name; the service's result type carries a success
flag and a message. -/
theorem lead_payload_discriminator (d : LeadFormValues) :
    (formatLeadData d).formType = "lead" ∧
    SHEET_NAMES.LEAD = "recebendoDadosDeLeads" ∧
    ∀ res : Nat → Except String String,
      (submitToGoogleSheets res).2 =
        { success := (submitToGoogleSheets res).2.success,
          message := (submitToGoogleSheets res).2.message } := by
  refine ⟨rfl, rfl, fun res => rfl⟩

/-- C9: a failed outcome (failure result or exception) leaves the form's
field values untouched and schedules no reset: the user's entered data
survives a failed submission. -/
theorem failure_preserves_values (s : FormState) (o : SubmitOutcome)
    (hf : o.failed = true) :
    (completeSubmit s o).values = s.values ∧
    (completeSubmit s o).pendingReset = s.pendingReset := by
  cases o with
  | result r =>
    cases hr : r.success with
    | true => simp [SubmitOutcome.failed, hr] at hf
    | false => simp [completeSubmit, hr]
  | exception m => simp [completeSubmit]

/-- Witness for C9 at a concrete state and exception outcome. -/
theorem failure_preserves_values_check :
    (completeSubmit
        { initFormState with isSubmitting := true,
                             values := { defaultLeadValues with nome := "Ana" } }
        (.exception none)).values =
      ({ initFormState with isSubmitting := true,
                            values := { defaultLeadValues with nome := "Ana" }
        } : FormState).values ∧
    (completeSubmit
        { initFormState with isSubmitting := true,
                             values := { defaultLeadValues with nome := "Ana" } }
        (.exception none)).pendingReset =
      ({ initFormState with isSubmitting := true,
                            values := { defaultLeadValues with nome := "Ana" }
        } : FormState).pendingReset :=
  failure_preserves_values _ _ rfl

/-- C10: whenever a submission is in flight or the `submitted` display window
is active, the submit button is disabled and no new submission step is
enabled. -/
theorem disabled_blocks_new_submission (s : FormState)
    (h : s.isSubmitting = true ∨ s.submitted = true) :
    buttonDisabled s = true ∧ stepForm s .start = none := by
  have hb : buttonDisabled s = true := by
    cases h with
    | inl h => simp [buttonDisabled, h]
    | inr h => simp [buttonDisabled, h]
  exact ⟨hb, by simp [stepForm, hb]⟩

/-- Witness for C10 at a concrete state inside the `submitted` window. -/
theorem disabled_blocks_new_submission_check :
    buttonDisabled { initFormState with submitted := true } = true ∧
    stepForm { initFormState with submitted := true } .start = none :=
  disabled_blocks_new_submission _ (Or.inr rfl)

end DeltaSells
